import Mathlib

/-!
Verification development for the pytorch-lightning boilerplate repository.

The repository's own code (under version control) fixes: the split seed drawn
once per `ProjectDataModule` and reused by every `setup` call, the fraction
list `[0.7, 0.2, 0.1]` handed to the splitting routine, the destructuring
order `train_set, test_set, val_set` of its result, the stage-conditional
assignment of the three subset fields, the output-manager routing and secret
redaction, the trainer checkpoint-path check, and the classifier forward
composition.  The permutation generator and the fraction-to-length arithmetic
live in the external `torch.utils.data.random_split` collaborator and are
modelled from the spec where noted.
-/

namespace Boilerplate

/-- Modelled from the spec: the spec's Partitioner uses "a pseudo-random
generator seeded with `seed`"; the concrete generator lives in the external
tensor library.  We model it as a linear congruential generator on 64-bit
state. -/
def lcgNext (s : Nat) : Nat :=
  (6364136223846793005 * s + 1442695040888963407) % 18446744073709551616

/-- Modelled from the spec: one pass of drawing elements without replacement,
producing "a uniformly-shuffled permutation" of the input list; the element
drawn at each step is selected by the generator state modulo the number of
remaining elements. -/
def shuffleAux (s : Nat) (l : List Nat) : List Nat :=
  if h : l.length = 0 then []
  else
    let y := l.get ⟨s % l.length, Nat.mod_lt s (Nat.pos_of_ne_zero h)⟩
    y :: shuffleAux (lcgNext s) (l.erase y)
termination_by l.length
decreasing_by
  rw [List.length_erase_of_mem (l.get_mem _ _)]
  omega

/-- Modelled from the spec: "generate a uniformly-shuffled permutation of
`[0, dataset_size)` using a pseudo-random generator seeded with `seed`". -/
def randperm (seed n : Nat) : List Nat :=
  shuffleAux seed (List.range n)

theorem shuffleAux_perm (s : Nat) (l : List Nat) : (shuffleAux s l).Perm l := by
  rw [shuffleAux]
  split
  · next h =>
    rw [List.length_eq_zero.mp h]
  · next h =>
    have hy : l.get ⟨s % l.length, Nat.mod_lt s (Nat.pos_of_ne_zero h)⟩ ∈ l :=
      l.get_mem _ _
    exact ((shuffleAux_perm (lcgNext s) (l.erase _)).cons _).trans
      (List.perm_cons_erase hy).symm
termination_by l.length
decreasing_by
  rw [List.length_erase_of_mem (l.get_mem _ _)]
  omega

theorem randperm_perm (seed n : Nat) : (randperm seed n).Perm (List.range n) :=
  shuffleAux_perm seed (List.range n)

theorem randperm_length (seed n : Nat) : (randperm seed n).length = n := by
  rw [(randperm_perm seed n).length_eq, List.length_range]

theorem randperm_nodup (seed n : Nat) : (randperm seed n).Nodup :=
  (randperm_perm seed n).nodup_iff.mpr (List.nodup_range n)

theorem mem_randperm_iff (seed n i : Nat) : i ∈ randperm seed n ↔ i < n := by
  rw [(randperm_perm seed n).mem_iff, List.mem_range]

/-- Tolerance of the fraction-sum validation (spec: "sum to 1 within floating
tolerance"). -/
def fracTolerance : ℚ := 1 / 1000000000

/-- The spec's precondition on a fraction triple: non-negative entries whose
sum is 1 within tolerance. -/
def validFractions (f : ℚ × ℚ × ℚ) : Prop :=
  0 ≤ f.1 ∧ 0 ≤ f.2.1 ∧ 0 ≤ f.2.2 ∧ |f.1 + f.2.1 + f.2.2 - 1| ≤ fracTolerance

instance (f : ℚ × ℚ × ℚ) : Decidable (validFractions f) := by
  unfold validFractions; infer_instance

/-- Modelled from the spec: the fraction-to-length arithmetic of the external
splitting collaborator — "assign the first `round(f_train * dataset_size)`
indices to the first subset, the next `round(f_val * dataset_size)` to the
second, and the remainder to the third (so rounding error is absorbed by the
last partition)".  The result components are the three consecutive slices of
the shuffled permutation, in the order of the fraction triple. -/
def partition (n : Nat) (f : ℚ × ℚ × ℚ) (seed : Nat) :
    List Nat × List Nat × List Nat :=
  let perm := randperm seed n
  let a := (round (f.1 * (n : ℚ))).toNat
  let b := (round (f.2.1 * (n : ℚ))).toNat
  (perm.take a, (perm.drop a).take b, (perm.drop a).drop b)

theorem partition_append (n : Nat) (f : ℚ × ℚ × ℚ) (seed : Nat) :
    (partition n f seed).1 ++ ((partition n f seed).2.1 ++ (partition n f seed).2.2)
      = randperm seed n := by
  simp [partition, List.take_append_drop]

theorem partition_length_sum (n : Nat) (f : ℚ × ℚ × ℚ) (seed : Nat) :
    (partition n f seed).1.length + (partition n f seed).2.1.length
      + (partition n f seed).2.2.length = n := by
  have h := congrArg List.length (partition_append n f seed)
  simp only [List.length_append, randperm_length] at h
  omega

theorem partition_nodup_parts (n : Nat) (f : ℚ × ℚ × ℚ) (seed : Nat) :
    (partition n f seed).1.Nodup ∧ (partition n f seed).2.1.Nodup
      ∧ (partition n f seed).2.2.Nodup := by
  have h : ((partition n f seed).1 ++ ((partition n f seed).2.1
      ++ (partition n f seed).2.2)).Nodup := by
    rw [partition_append]; exact randperm_nodup seed n
  rw [List.nodup_append] at h
  obtain ⟨h1, h23, _⟩ := h
  rw [List.nodup_append] at h23
  exact ⟨h1, h23.1, h23.2.1⟩

theorem partition_disjoint (n : Nat) (f : ℚ × ℚ × ℚ) (seed : Nat) :
    (partition n f seed).1.Disjoint (partition n f seed).2.1
      ∧ (partition n f seed).1.Disjoint (partition n f seed).2.2
      ∧ (partition n f seed).2.1.Disjoint (partition n f seed).2.2 := by
  have h : ((partition n f seed).1 ++ ((partition n f seed).2.1
      ++ (partition n f seed).2.2)).Nodup := by
    rw [partition_append]; exact randperm_nodup seed n
  rw [List.nodup_append] at h
  obtain ⟨_, h23, h1d⟩ := h
  rw [List.nodup_append] at h23
  refine ⟨fun a ha hb => h1d ha (List.mem_append_left _ hb),
    fun a ha hb => h1d ha (List.mem_append_right _ hb), h23.2.2⟩

theorem partition_mem_iff (n : Nat) (f : ℚ × ℚ × ℚ) (seed i : Nat) :
    (i ∈ (partition n f seed).1 ∨ i ∈ (partition n f seed).2.1
      ∨ i ∈ (partition n f seed).2.2) ↔ i < n := by
  rw [← mem_randperm_iff seed n i, ← partition_append n f seed]
  simp [or_assoc]

/-- Modelled from the spec: the Partitioner's failure modes — `InvalidFractions`
and `EmptyDataset`. -/
inductive PartitionError where
  | invalidFractions
  | emptyDataset
deriving DecidableEq, Repr

/-- Modelled from the spec: the Partitioner contract with its preconditions —
"signals an `InvalidFractions` error if fractions do not sum to 1 (within
tolerance) or contain negatives; signals `EmptyDataset` if
`dataset_size == 0`".  The error is returned through `Except`, so it
propagates to the calling stage with no automatic recovery. -/
def partitionChecked (n : Nat) (f : ℚ × ℚ × ℚ) (seed : Nat) :
    Except PartitionError (List Nat × List Nat × List Nat) :=
  if ¬ validFractions f then .error .invalidFractions
  else if n = 0 then .error .emptyDataset
  else .ok (partition n f seed)

/-- The state of a `ProjectDataModule`: the split seed drawn once at
construction, the three optional subset fields, and the data-loading worker
count. -/
structure DataModule where
  splitSeed : Nat
  datasetTrain : Option (List Nat) := none
  datasetVal : Option (List Nat) := none
  datasetTest : Option (List Nat) := none
  nbWorkers : Nat := 0
deriving DecidableEq, Repr

/-- `ProjectDataModule.__init__`: the split seed is drawn once from an
un-seeded entropy source (`random.randint(0, int(1e12))`, modelled by reducing
an abstract entropy value into the same range) and the three subset fields
start unassigned. -/
def initDataModule (entropy : Nat) : DataModule :=
  { splitSeed := entropy % 1000000000001 }

/-- `ProjectDataModule.set_auto_nb_workers`: when no trainer is attached the
state is left unchanged; otherwise the worker count computed from the
environment (an external query, passed in abstractly) is stored. -/
def set_auto_nb_workers (m : DataModule) (trainerWorkers : Option Nat) :
    DataModule :=
  match trainerWorkers with
  | none => m
  | some w => { m with nbWorkers := w }

/-- The fraction list `[0.7, 0.2, 0.1]` that `setup` hands to the splitting
routine. -/
def setupFractions : ℚ × ℚ × ℚ := (7 / 10, 2 / 10, 1 / 10)

/-- `ProjectDataModule.setup`: recompute the worker count, split the dataset
with the stored seed — destructuring the three slices in the source's order
`train_set, test_set, val_set` — and assign only the subset fields of the
requested stage ("fit" assigns train and validation, "test" assigns test). -/
def setup (m : DataModule) (trainerWorkers : Option Nat) (n : Nat)
    (stage : Option String) : DataModule :=
  let m := set_auto_nb_workers m trainerWorkers
  let split := partition n setupFractions m.splitSeed
  let train_set := split.1
  let test_set := split.2.1
  let val_set := split.2.2
  let m := if stage = some "fit" then
      { m with datasetTrain := some train_set, datasetVal := some val_set }
    else m
  if stage = some "test" then { m with datasetTest := some test_set } else m

/-- `OutputManager.__init__` configuration (defaults as in the source). -/
structure OutputManager where
  run_name : String := "tmp"
  log_level_console : Option String := some "info"
  log_level_files : Option String := some "debug"
  save_plots : Bool := true
  show_plots : Bool := false
  upload_plots : Bool := true
  image_latex_format : Bool := false
  enable_mlflow : Bool := false
  enable_wandb : Bool := false
  wandb_api_key : Option String := none
  save_trained_model : Bool := true
deriving DecidableEq, Repr

/-- `OutputManager.is_plot_enabled`: "True at least on of the following option
is enabled: show_plots, save_plots, upload_plots". -/
def is_plot_enabled (om : OutputManager) : Bool :=
  om.show_plots || om.save_plots || om.upload_plots

/-- Behaviour of the external delivery steps during one plotting call: which
of them raises an exception. -/
structure PlotEnv where
  renderRaises : Bool := false
  saveRaises : Bool := false
  wandbUploadRaises : Bool := false
  mlflowUploadRaises : Bool := false
  showRaises : Bool := false
  wandbTableRaises : Bool := false
deriving DecidableEq, Repr

/-- Observable effects of one plotting call. -/
inductive PlotEvent where
  | rendered
  | saved
  | uploadedWandb
  | uploadedMlflow
  | shown
  | closed
  | wandbCmTable
deriving DecidableEq, Repr

/-- `OutputManager.process_plot`: save the figure locally when `save_plots`,
then upload it to Weights & Biases and to MLFlow when `upload_plots` and the
corresponding integration is enabled, then show or close the figure.  The
steps run in this order with no exception handling inside the method, so a
raising step aborts the remainder; the second component records whether the
call escaped with an exception. -/
def process_plot (om : OutputManager) (env : PlotEnv) :
    List PlotEvent × Bool :=
  if om.save_plots && env.saveRaises then ([], true)
  else
    let evs := if om.save_plots then [PlotEvent.saved] else []
    if om.upload_plots && om.enable_wandb && env.wandbUploadRaises then
      (evs, true)
    else
      let evs := evs ++
        if om.upload_plots && om.enable_wandb then [PlotEvent.uploadedWandb]
        else []
      if om.upload_plots && om.enable_mlflow && env.mlflowUploadRaises then
        (evs, true)
      else
        let evs := evs ++
          if om.upload_plots && om.enable_mlflow then [PlotEvent.uploadedMlflow]
          else []
        if om.show_plots then
          if env.showRaises then (evs, true) else (evs ++ [PlotEvent.shown], false)
        else (evs ++ [PlotEvent.closed], false)

/-- `plot_confusion_matrix`: render the heatmap figure (an external call that
may itself raise), then hand it to `process_plot`. -/
def plot_confusion_matrix (om : OutputManager) (env : PlotEnv) :
    List PlotEvent × Bool :=
  if env.renderRaises then ([], true)
  else
    let r := process_plot om env
    (PlotEvent.rendered :: r.1, r.2)

/-- `plot_confusion_matrix_wandb`: log the confusion-matrix table to Weights &
Biases (may raise). -/
def plot_confusion_matrix_wandb (env : PlotEnv) : List PlotEvent × Bool :=
  if env.wandbTableRaises then ([], true) else ([PlotEvent.wandbCmTable], false)

/-- `plot_test_results`: return immediately when plotting is disabled;
otherwise run the plotting routine inside one try-except block that swallows
any exception (so the raised-flag of the overall call is always `false`).  A
raise inside the block skips every later step of the block. -/
def plot_test_results (om : OutputManager) (env : PlotEnv) :
    List PlotEvent × Bool :=
  if !is_plot_enabled om then ([], false)
  else
    let r := plot_confusion_matrix om env
    if r.2 then (r.1, false)
    else if om.enable_wandb then
      (r.1 ++ (plot_confusion_matrix_wandb env).1, false)
    else (r.1, false)

/-- A configuration value: string, integer, boolean, Python `None`, or a
nested mapping. -/
inductive CValue where
  | s : String → CValue
  | i : Int → CValue
  | b : Bool → CValue
  | none : CValue
  | d : List (String × CValue) → CValue

/-- Python truthiness of a configuration value (`not value` is its
negation). -/
def CValue.truthy : CValue → Bool
  | .s v => v != ""
  | .i v => v != 0
  | .b v => v
  | .none => false
  | .d entries => !entries.isEmpty

/-- Python `key.startswith("__")`: the first two characters are
underscores. -/
def startsWithDunder (key : String) : Bool :=
  key.data.take 2 == ['_', '_']

/-- Python `s.strip()`: the characters of `s` with leading and trailing
whitespace removed. -/
def strippedChars (s : String) : List Char :=
  ((s.data.dropWhile Char.isWhitespace).reverse.dropWhile
    Char.isWhitespace).reverse

/-- Whether a configuration value is a nested mapping. -/
def CValue.isDict : CValue → Bool
  | .d _ => true
  | _ => false

/-- `_SECRET_ARGS`: argument names for which we want to hide the values. -/
def _SECRET_ARGS : List String := ["wandb_api_key"]

/-- `CLIConfig.get_config_dict.recursive_process_dict`: copy the configuration
mapping, recursing into nested mappings, skipping keys that start with `__`,
and replacing the value of a secret key by the `<secret>` placeholder unless
the value is falsy (`d[key] = value if key not in _SECRET_ARGS or not value
else` the placeholder). -/
def recursive_process_dict : List (String × CValue) → List (String × CValue)
  | [] => []
  | (key, CValue.d sub) :: rest =>
      (key, CValue.d (recursive_process_dict sub)) :: recursive_process_dict rest
  | (key, value) :: rest =>
      if startsWithDunder key then recursive_process_dict rest
      else
        (key, if key ∈ _SECRET_ARGS ∧ value.truthy = true
              then CValue.s "<secret>" else value) :: recursive_process_dict rest

/-- `CLIConfig.get_config_dict`: the run configuration with secret values
hidden and special arguments removed. -/
def get_config_dict (config : List (String × CValue)) : List (String × CValue) :=
  recursive_process_dict config

/-- The destinations an `OutputManager` can route a record to. -/
inductive Sink where
  | console
  | localFile
  | wandbSink
  | mlflowSink
deriving DecidableEq, Repr

/-- `OutputManager.log_config`: the record is sent verbatim to every active
destination — the console and local-file handlers exist when their log level
is configured (`_init_loggers`), and each enabled remote logger receives the
same mapping (`config.update` for Weights & Biases, `log_hyperparams` for
MLFlow).  Per-handler severity filtering is not modelled; a destination is
modelled as receiving the routed record. -/
def log_config (om : OutputManager) (record : List (String × CValue)) :
    List (Sink × List (String × CValue)) :=
  (if om.log_level_console.isSome then [(Sink.console, record)] else [])
  ++ (if om.log_level_files.isSome then [(Sink.localFile, record)] else [])
  ++ (if om.enable_wandb then [(Sink.wandbSink, record)] else [])
  ++ (if om.enable_mlflow then [(Sink.mlflowSink, record)] else [])

/-- `CLIConfig.instantiate_trainer` logs the processed configuration:
`self.output_manager.log_config(self.get_config_dict())`. -/
def logged_config_records (om : OutputManager) (config : List (String × CValue)) :
    List (Sink × List (String × CValue)) :=
  log_config om (get_config_dict config)

/-- `ModelTrainer.__init__` failure mode: the checkpoint file is missing. -/
inductive TrainerError where
  | missingModelFile
deriving DecidableEq, Repr

/-- The part of the trainer state the checkpoint check establishes. -/
structure ModelTrainer where
  load_model_path : Option String
deriving DecidableEq, Repr

/-- `ModelTrainer.__init__`: when a load path is given and is non-empty after
stripping whitespace, keep it and raise `FileNotFoundError` unless a file
exists there; otherwise store no path.  The filesystem is abstracted by the
`is_file` predicate. -/
def modelTrainerInit (is_file : String → Bool)
    (load_model_path : Option String) : Except TrainerError ModelTrainer :=
  match load_model_path with
  | some p =>
      if strippedChars p ≠ [] then
        if is_file p then .ok ⟨some p⟩ else .error .missingModelFile
      else .ok ⟨Option.none⟩
  | none => .ok ⟨Option.none⟩

/-- The learned parameters of `SimpleClassifier`: weight matrix and bias of
each of the two `Linear` layers (a matrix is a list of rows). -/
structure NetParams where
  w1 : List (List ℚ)
  b1 : List ℚ
  w2 : List (List ℚ)
  b2 : List ℚ

/-- The transcendental kernels of the external tensor library (exponential and
logarithm), abstracted: the spec treats numeric kernels as external
collaborators. -/
structure ScalarOps where
  exp : ℚ → ℚ
  log : ℚ → ℚ

/-- Dot product of two equal-length vectors (external matrix-multiply
kernel, restricted to what `Linear` needs). -/
def dot : List ℚ → List ℚ → ℚ
  | [], _ => 0
  | _, [] => 0
  | a :: ar, c :: cr => a * c + dot ar cr

/-- `torch.nn.Linear`: the affine map `v ↦ W v + b`, one output coordinate
per (row, bias) pair. -/
def applyLinear (w : List (List ℚ)) (b : List ℚ) (v : List ℚ) : List ℚ :=
  (w.zip b).map (fun rb => dot rb.1 v + rb.2)

/-- `torch.nn.ReLU`: elementwise `max 0`. -/
def reluVec (v : List ℚ) : List ℚ :=
  v.map (fun x => max 0 x)

/-- `torch.log_softmax` over one row: `x_i - log (Σ_j exp x_j)`, the
log-normalization over the class dimension. -/
def logSoftmax (ops : ScalarOps) (v : List ℚ) : List ℚ :=
  v.map (fun x => x - ops.log ((v.map ops.exp).sum))

/-- `SimpleClassifier.forward`: flatten each batch element to a 1-D vector,
apply `linear1`, `relu`, `linear2`, then `log_softmax` over dimension 1.  A
batch is a list of elements, each a (possibly multi-dimensional, here 2-D)
array of scalars; each batch-level tensor operation acts row-wise. -/
def forward (ops : ScalarOps) (p : NetParams) (x : List (List (List ℚ))) :
    List (List ℚ) :=
  let x := x.map List.flatten
  let x := x.map (applyLinear p.w1 p.b1)
  let x := x.map reluVec
  let x := x.map (applyLinear p.w2 p.b2)
  x.map (logSoftmax ops)

/-- Parameter shapes declared in `SimpleClassifier.__init__` for a given
hidden width and class count: `linear2` has `nb_class` output features. -/
def outputShapeOk (p : NetParams) (nb_class : Nat) : Prop :=
  p.w2.length = nb_class ∧ p.b2.length = nb_class

theorem applyLinear_length (w : List (List ℚ)) (b : List ℚ) (v : List ℚ) :
    (applyLinear w b v).length = min w.length b.length := by
  simp [applyLinear]

theorem logSoftmax_length (ops : ScalarOps) (v : List ℚ) :
    (logSoftmax ops v).length = v.length := by
  simp [logSoftmax]

/-- Sizes of the three partition slices in terms of the rounded fraction
lengths. -/
theorem partition_part_lengths (n : Nat) (f : ℚ × ℚ × ℚ) (seed : Nat) :
    (partition n f seed).1.length = min ((round (f.1 * (n : ℚ))).toNat) n
    ∧ (partition n f seed).2.1.length
        = min ((round (f.2.1 * (n : ℚ))).toNat) (n - (round (f.1 * (n : ℚ))).toNat)
    ∧ (partition n f seed).2.2.length
        = n - (round (f.1 * (n : ℚ))).toNat - (round (f.2.1 * (n : ℚ))).toNat := by
  refine ⟨?_, ?_, ?_⟩ <;>
    simp [partition, List.length_take, List.length_drop, randperm_length,
      Nat.sub_sub]

/-- Concrete slice sizes at dataset size 100 with the `setup` fractions. -/
theorem partition_lengths_100 (s : Nat) :
    (partition 100 setupFractions s).1.length = 70
    ∧ (partition 100 setupFractions s).2.1.length = 20
    ∧ (partition 100 setupFractions s).2.2.length = 10 := by
  have h := partition_part_lengths 100 setupFractions s
  have ha : (round (setupFractions.1 * ((100 : Nat) : ℚ))).toNat = 70 := by
    norm_num [setupFractions]
    decide
  have hb : (round (setupFractions.2.1 * ((100 : Nat) : ℚ))).toNat = 20 := by
    norm_num [setupFractions]
    decide
  rw [ha, hb] at h
  refine ⟨?_, ?_, ?_⟩
  · rw [h.1]; decide
  · rw [h.2.1]; decide
  · rw [h.2.2]

/-- Claim C1: for every dataset size N ≥ 1 and valid fraction triple, the
split underlying `setup` yields three index lists that are duplicate-free and
pairwise disjoint and whose sizes sum to N — no leftover and no duplicate
index. -/
theorem C1_split_disjoint_cover (n : Nat) (f : ℚ × ℚ × ℚ) (seed : Nat)
    (_hn : 1 ≤ n) (_hf : validFractions f) :
    ((partition n f seed).1.length + (partition n f seed).2.1.length
        + (partition n f seed).2.2.length = n)
    ∧ (partition n f seed).1.Nodup ∧ (partition n f seed).2.1.Nodup
    ∧ (partition n f seed).2.2.Nodup
    ∧ (partition n f seed).1.Disjoint (partition n f seed).2.1
    ∧ (partition n f seed).1.Disjoint (partition n f seed).2.2
    ∧ (partition n f seed).2.1.Disjoint (partition n f seed).2.2 :=
  ⟨partition_length_sum n f seed, (partition_nodup_parts n f seed).1,
    (partition_nodup_parts n f seed).2.1, (partition_nodup_parts n f seed).2.2,
    (partition_disjoint n f seed).1, (partition_disjoint n f seed).2.1,
    (partition_disjoint n f seed).2.2⟩

/-- Witness for C1 at N = 10, fractions (0.7, 0.2, 0.1), seed 5. -/
theorem C1_split_disjoint_cover_witness :
    (1 ≤ 10 ∧ validFractions (7 / 10, 2 / 10, 1 / 10))
    ∧ ((partition 10 (7 / 10, 2 / 10, 1 / 10) 5).1.length
        + (partition 10 (7 / 10, 2 / 10, 1 / 10) 5).2.1.length
        + (partition 10 (7 / 10, 2 / 10, 1 / 10) 5).2.2.length = 10) :=
  ⟨⟨by norm_num, by norm_num [validFractions, fracTolerance]⟩,
    (C1_split_disjoint_cover 10 (7 / 10, 2 / 10, 1 / 10) 5 (by norm_num)
      (by norm_num [validFractions, fracTolerance])).1⟩

/-- After a "fit"-stage call followed by a "test"-stage call, all three
subset fields hold the slices of the one partition determined by the stored
seed. -/
theorem setup_fit_test_fields (m : DataModule) (w w' : Option Nat) (n : Nat) :
    ((setup (setup m w n (some "fit")) w' n (some "test")).datasetTrain
        = some (partition n setupFractions m.splitSeed).1)
    ∧ ((setup (setup m w n (some "fit")) w' n (some "test")).datasetVal
        = some (partition n setupFractions m.splitSeed).2.2)
    ∧ ((setup (setup m w n (some "fit")) w' n (some "test")).datasetTest
        = some (partition n setupFractions m.splitSeed).2.1) := by
  cases w <;> cases w' <;> simp [setup, set_auto_nb_workers]

/-- Claim C2: the split seed is generated once at construction and reused, so
invoking `setup` for the "fit" stage and then for the "test" stage assigns
subset fields that all come from the single partition determined by the
stored seed — the index assignment of the two invocations is identical. -/
theorem C2_setup_deterministic (m : DataModule) (w w' : Option Nat) (n : Nat) :
    ((setup (setup m w n (some "fit")) w' n (some "test")).datasetTrain
        = some (partition n setupFractions m.splitSeed).1)
    ∧ ((setup (setup m w n (some "fit")) w' n (some "test")).datasetVal
        = some (partition n setupFractions m.splitSeed).2.2)
    ∧ ((setup (setup m w n (some "fit")) w' n (some "test")).datasetTest
        = some (partition n setupFractions m.splitSeed).2.1) :=
  setup_fit_test_fields m w w' n

/-- Claim C3 as stated is false: with 100 records and fractions
(0.7, 0.2, 0.1), the validation subset receives 10 indices (not the claimed
20) and the test subset 20 (not the claimed 10), because `setup` destructures
the splitting result as `train_set, test_set, val_set`. -/
theorem C3_counterexample :
    ((setup (initDataModule 42) Option.none 100 (some "fit")).datasetVal.map
        List.length = some 10)
    ∧ ((setup (setup (initDataModule 42) Option.none 100 (some "fit"))
        Option.none 100 (some "test")).datasetTest.map List.length = some 20)
    ∧ (10 : Nat) ≠ 20 := by
  obtain ⟨h1, h2, h3⟩ := partition_lengths_100 (initDataModule 42).splitSeed
  refine ⟨?_, ?_, by norm_num⟩
  · simp [setup, set_auto_nb_workers, h3]
  · simp [setup, set_auto_nb_workers, h2]

/-- Claim C3 amended: with 100 records, fractions (0.7, 0.2, 0.1) and any
seed, the split assigns 70 indices to train, 20 to test and 10 to validation;
the three subsets are pairwise disjoint and together cover exactly the
indices below 100. -/
theorem C3_amended_split_100 (entropy : Nat) :
    ∃ train val test,
      (setup (setup (initDataModule entropy) Option.none 100 (some "fit"))
          Option.none 100 (some "test")).datasetTrain = some train
      ∧ (setup (setup (initDataModule entropy) Option.none 100 (some "fit"))
          Option.none 100 (some "test")).datasetVal = some val
      ∧ (setup (setup (initDataModule entropy) Option.none 100 (some "fit"))
          Option.none 100 (some "test")).datasetTest = some test
      ∧ train.length = 70 ∧ test.length = 20 ∧ val.length = 10
      ∧ train.Disjoint val ∧ train.Disjoint test ∧ val.Disjoint test
      ∧ (∀ i, (i ∈ train ∨ i ∈ val ∨ i ∈ test) ↔ i < 100) := by
  set s := (initDataModule entropy).splitSeed with hs
  refine ⟨(partition 100 setupFractions s).1, (partition 100 setupFractions s).2.2,
    (partition 100 setupFractions s).2.1, ?_, ?_, ?_, ?_, ?_, ?_, ?_, ?_, ?_, ?_⟩
  · exact (setup_fit_test_fields (initDataModule entropy) Option.none
      Option.none 100).1
  · exact (setup_fit_test_fields (initDataModule entropy) Option.none
      Option.none 100).2.1
  · exact (setup_fit_test_fields (initDataModule entropy) Option.none
      Option.none 100).2.2
  · exact (partition_lengths_100 s).1
  · exact (partition_lengths_100 s).2.1
  · exact (partition_lengths_100 s).2.2
  · exact (partition_disjoint 100 setupFractions s).2.1
  · exact (partition_disjoint 100 setupFractions s).1
  · exact fun a ha hb => (partition_disjoint 100 setupFractions s).2.2 hb ha
  · intro i
    rw [← partition_mem_iff 100 setupFractions s i]
    tauto

/-- Claim C4: the checked partition operation signals `InvalidFractions`
whenever the fractions are malformed (do not sum to 1 within tolerance, or
contain a negative), signals `EmptyDataset` whenever the fractions are well
formed but the dataset size is 0, and otherwise returns the split; the error
is propagated through `Except` to the calling stage with no recovery. -/
theorem C4_partition_errors (n : Nat) (f : ℚ × ℚ × ℚ) (seed : Nat) :
    (¬ validFractions f →
        partitionChecked n f seed = .error .invalidFractions)
    ∧ (validFractions f → n = 0 →
        partitionChecked n f seed = .error .emptyDataset)
    ∧ (validFractions f → n ≠ 0 →
        partitionChecked n f seed = .ok (partition n f seed)) := by
  refine ⟨fun h => by simp [partitionChecked, h],
    fun h h0 => by simp [partitionChecked, h, h0],
    fun h h0 => by simp [partitionChecked, h, h0]⟩

/-- Witness for C4: malformed fractions are rejected and a well-formed
non-empty instance succeeds. -/
theorem C4_partition_errors_witness :
    (¬ validFractions (1, 1, 1)
      ∧ partitionChecked 3 (1, 1, 1) 0 = .error .invalidFractions)
    ∧ (validFractions (7 / 10, 2 / 10, 1 / 10)
      ∧ partitionChecked 0 (7 / 10, 2 / 10, 1 / 10) 0 = .error .emptyDataset)
    ∧ (partitionChecked 3 (7 / 10, 2 / 10, 1 / 10) 9
      = .ok (partition 3 (7 / 10, 2 / 10, 1 / 10) 9)) :=
  ⟨⟨by norm_num [validFractions, fracTolerance],
    (C4_partition_errors 3 (1, 1, 1) 0).1
      (by norm_num [validFractions, fracTolerance])⟩,
   ⟨by norm_num [validFractions, fracTolerance],
    (C4_partition_errors 0 (7 / 10, 2 / 10, 1 / 10) 0).2.1
      (by norm_num [validFractions, fracTolerance]) rfl⟩,
   (C4_partition_errors 3 (7 / 10, 2 / 10, 1 / 10) 9).2.2
      (by norm_num [validFractions, fracTolerance]) (by norm_num)⟩

/-- A local save that succeeds delivers its event whatever the later steps
do. -/
theorem saved_mem_process_plot (om : OutputManager) (env : PlotEnv)
    (hs : om.save_plots = true) (hsr : env.saveRaises = false) :
    PlotEvent.saved ∈ (process_plot om env).1 := by
  simp only [process_plot, hs, hsr]
  simp only [Bool.and_false, Bool.false_eq_true, if_false, if_true,
    reduceIte]
  repeat' split
  all_goals simp

/-- Claim C5 as stated is false: with local saving and a Weights & Biases
upload both enabled, a raise while saving aborts `process_plot` before the
upload step — the second destination is never invoked (though the call still
returns normally because the exception is caught around the whole plotting
routine). -/
theorem C5_counterexample :
    PlotEvent.uploadedWandb ∉
      (plot_test_results
        { save_plots := true, upload_plots := true, enable_wandb := true }
        { saveRaises := true }).1 := by decide

/-- Claim C5 amended: exceptions raised while delivering a plot are caught at
the plotting-routine boundary, so the overall call always returns normally;
destinations invoked before the failing step keep their deliveries (a local
save that succeeded is retained even if a later destination raises), but
destinations ordered after the failing step are skipped. -/
theorem C5_amended_best_effort (om : OutputManager) (env : PlotEnv) :
    (plot_test_results om env).2 = false
    ∧ (env.renderRaises = false → om.save_plots = true →
        env.saveRaises = false →
        PlotEvent.saved ∈ (plot_test_results om env).1) := by
  constructor
  · unfold plot_test_results
    split
    · rfl
    · dsimp only
      split
      · rfl
      · split <;> rfl
  · intro hr hs hsr
    have hmem : PlotEvent.saved ∈ (plot_confusion_matrix om env).1 := by
      simp [plot_confusion_matrix, hr, saved_mem_process_plot om env hs hsr]
    have hen : is_plot_enabled om = true := by simp [is_plot_enabled, hs]
    simp only [plot_test_results, hen, Bool.not_true,
      if_neg Bool.false_ne_true]
    split
    · exact hmem
    · split
      · exact List.mem_append_left _ hmem
      · exact hmem

/-- Witness for C5 amended: default configuration (save and upload enabled)
where the Weights & Biases table step raises. -/
theorem C5_amended_best_effort_witness :
    (plot_test_results { enable_wandb := true } { wandbTableRaises := true }).2
        = false
    ∧ PlotEvent.saved ∈
        (plot_test_results { enable_wandb := true }
          { wandbTableRaises := true }).1 :=
  ⟨(C5_amended_best_effort { enable_wandb := true }
      { wandbTableRaises := true }).1,
   (C5_amended_best_effort { enable_wandb := true }
      { wandbTableRaises := true }).2 rfl rfl rfl⟩

/-- Claim C6 as stated is false: the redaction keeps a falsy secret value
as-is (`value if key not in _SECRET_ARGS or not value else` the placeholder),
so an empty-string `wandb_api_key` is logged unredacted, and two
configurations differing only in the secret value (empty vs non-empty)
produce different logged records. -/
theorem C6_counterexample :
    (get_config_dict
        [("wandb_api_key", CValue.s ""), ("run_name", CValue.s "x")]
      = [("wandb_api_key", CValue.s ""), ("run_name", CValue.s "x")])
    ∧ get_config_dict
        [("wandb_api_key", CValue.s ""), ("run_name", CValue.s "x")]
      ≠ get_config_dict
        [("wandb_api_key", CValue.s "secret123"), ("run_name", CValue.s "x")] := by
  have hd1 : startsWithDunder "wandb_api_key" = false := by decide
  have hd2 : startsWithDunder "run_name" = false := by decide
  have hA : get_config_dict
      [("wandb_api_key", CValue.s ""), ("run_name", CValue.s "x")]
      = [("wandb_api_key", CValue.s ""), ("run_name", CValue.s "x")] := by
    simp [get_config_dict, recursive_process_dict, CValue.truthy,
      _SECRET_ARGS, hd1, hd2]
  have hB : get_config_dict
      [("wandb_api_key", CValue.s "secret123"), ("run_name", CValue.s "x")]
      = [("wandb_api_key", CValue.s "<secret>"), ("run_name", CValue.s "x")] := by
    simp [get_config_dict, recursive_process_dict, CValue.truthy,
      _SECRET_ARGS, hd1, hd2]
  refine ⟨hA, ?_⟩
  rw [hA, hB]
  intro h
  injection h with h1 _
  injection h1 with _ h2
  exact absurd (CValue.s.inj h2) (by decide)

/-- A truthy non-mapping value under a secret key is replaced by the fixed
placeholder. -/
theorem rpd_secret (k : String) (v : CValue) (rest : List (String × CValue))
    (hk : k ∈ _SECRET_ARGS) (ht : v.truthy = true) (hd : v.isDict = false) :
    recursive_process_dict ((k, v) :: rest)
      = (k, CValue.s "<secret>") :: recursive_process_dict rest := by
  have hkey : k = "wandb_api_key" := by simpa [_SECRET_ARGS] using hk
  subst hkey
  have hsw : startsWithDunder "wandb_api_key" = false := by decide
  cases v <;> simp_all [recursive_process_dict, CValue.isDict, _SECRET_ARGS]

/-- A non-secret, non-special, non-mapping entry passes through unchanged. -/
theorem rpd_passthrough (k : String) (v : CValue)
    (rest : List (String × CValue)) (hk : k ∉ _SECRET_ARGS)
    (hsw : startsWithDunder k = false) (hd : v.isDict = false) :
    recursive_process_dict ((k, v) :: rest)
      = (k, v) :: recursive_process_dict rest := by
  cases v <;> simp_all [recursive_process_dict, CValue.isDict]

/-- Claim C6 amended: a secret-keyed value is replaced by the fixed
placeholder whenever it is truthy (non-empty); non-secret entries pass
through unchanged; consequently two configurations differing only in a truthy
secret value produce the same processed record, and `log_config` hands that
one processed record verbatim to every enabled destination, local files
included. -/
theorem C6_redaction (k : String) (va vb v : CValue)
    (rest : List (String × CValue)) (om : OutputManager)
    (config : List (String × CValue)) :
    (k ∈ _SECRET_ARGS → va.truthy = true → va.isDict = false →
        recursive_process_dict ((k, va) :: rest)
          = (k, CValue.s "<secret>") :: recursive_process_dict rest)
    ∧ (k ∈ _SECRET_ARGS → va.truthy = true → vb.truthy = true →
        va.isDict = false → vb.isDict = false →
        recursive_process_dict ((k, va) :: rest)
          = recursive_process_dict ((k, vb) :: rest))
    ∧ (k ∉ _SECRET_ARGS → startsWithDunder k = false → v.isDict = false →
        recursive_process_dict ((k, v) :: rest)
          = (k, v) :: recursive_process_dict rest)
    ∧ (∀ sr ∈ logged_config_records om config, sr.2 = get_config_dict config) := by
  refine ⟨rpd_secret k va rest, fun hk hta htb hda hdb => ?_,
    rpd_passthrough k v rest, fun sr hsr => ?_⟩
  · rw [rpd_secret k va rest hk hta hda, rpd_secret k vb rest hk htb hdb]
  · simp only [logged_config_records, log_config, List.mem_append] at hsr
    rcases hsr with ((h | h) | h) | h <;> (split at h <;> simp_all)

/-- Witness for C6 amended: the key `wandb_api_key` with two different
non-empty secrets yields identical redacted records, delivered unchanged to
the destinations of a default output manager. -/
theorem C6_redaction_witness :
    (recursive_process_dict
        [("wandb_api_key", CValue.s "secret123"), ("run_name", CValue.s "x")]
      = recursive_process_dict
        [("wandb_api_key", CValue.s "other456"), ("run_name", CValue.s "x")])
    ∧ (∀ sr ∈ logged_config_records {} [("run_name", CValue.s "x")],
        sr.2 = get_config_dict [("run_name", CValue.s "x")]) :=
  ⟨(C6_redaction "wandb_api_key" (CValue.s "secret123") (CValue.s "other456")
      (CValue.s "x") [("run_name", CValue.s "x")] {} []).2.1
      (by decide) (by decide) (by decide) (by decide) (by decide),
   (C6_redaction "wandb_api_key" (CValue.s "secret123") (CValue.s "other456")
      (CValue.s "x") [] {} [("run_name", CValue.s "x")]).2.2.2⟩

/-- Claim C7 as stated is false: a whitespace-only checkpoint path is
non-empty, yet the constructor treats it as absent (the code tests
`load_model_path.strip() != ''`) and succeeds without checking the
filesystem. -/
theorem C7_counterexample :
    (" " ≠ "")
    ∧ modelTrainerInit (fun _ => false) (some " ")
        = Except.ok ⟨Option.none⟩ := by
  constructor
  · decide
  · have h : strippedChars " " = [] := by decide
    simp [modelTrainerInit, h]

/-- Claim C7 amended: when the supplied checkpoint path is non-blank (still
non-empty after stripping whitespace) and no file exists there, construction
fails with the missing-model-file error; when the file exists, construction
succeeds and the path is retained; a blank or absent path is stored as no
path. -/
theorem C7_checkpoint_check (is_file : String → Bool) (p : String) :
    (strippedChars p ≠ [] → is_file p = false →
        modelTrainerInit is_file (some p) = .error .missingModelFile)
    ∧ (strippedChars p ≠ [] → is_file p = true →
        modelTrainerInit is_file (some p) = .ok ⟨some p⟩)
    ∧ (strippedChars p = [] →
        modelTrainerInit is_file (some p) = .ok ⟨Option.none⟩)
    ∧ modelTrainerInit is_file Option.none = .ok ⟨Option.none⟩ := by
  refine ⟨fun h hf => by simp [modelTrainerInit, h, hf],
    fun h hf => by simp [modelTrainerInit, h, hf],
    fun h => by simp [modelTrainerInit, h], rfl⟩

/-- Witness for C7 amended: a missing file is rejected and an existing file
is kept. -/
theorem C7_checkpoint_check_witness :
    (modelTrainerInit (fun _ => false) (some "model.ckpt")
        = .error .missingModelFile)
    ∧ (modelTrainerInit (fun _ => true) (some "model.ckpt")
        = .ok ⟨some "model.ckpt"⟩) :=
  ⟨(C7_checkpoint_check (fun _ => false) "model.ckpt").1 (by decide) rfl,
   (C7_checkpoint_check (fun _ => true) "model.ckpt").2.1 (by decide) rfl⟩

/-- Claim C8: `is_plot_enabled` returns true iff at least one of show_plots,
save_plots, upload_plots is true, and when it returns false the plotting
routine returns immediately with no effect at all (in particular nothing is
rendered). -/
theorem C8_plot_enabled_gate (om : OutputManager) :
    (is_plot_enabled om = true ↔
      (om.show_plots = true ∨ om.save_plots = true ∨ om.upload_plots = true))
    ∧ (is_plot_enabled om = false →
        ∀ env, plot_test_results om env = ([], false)) := by
  constructor
  · simp [is_plot_enabled, or_assoc]
  · intro h env
    simp [plot_test_results, h]

/-- Witness for C8: with all three options off, plotting is disabled and the
routine produces no event. -/
theorem C8_plot_enabled_gate_witness :
    (is_plot_enabled { save_plots := false, upload_plots := false } = false)
    ∧ plot_test_results { save_plots := false, upload_plots := false } {}
        = ([], false) :=
  ⟨by decide,
   (C8_plot_enabled_gate { save_plots := false, upload_plots := false }).2
      (by decide) {}⟩

/-- Claim C9: the classifier's forward pass equals the composition flatten,
first affine transform, nonlinearity, second affine transform,
log-normalization over the class dimension — and it returns one per-class
score vector per batch element. -/
theorem C9_forward_composition (ops : ScalarOps) (p : NetParams)
    (x : List (List (List ℚ))) (nb_class : Nat)
    (hp : outputShapeOk p nb_class) :
    (forward ops p x = x.map (fun v =>
        logSoftmax ops (applyLinear p.w2 p.b2
          (reluVec (applyLinear p.w1 p.b1 v.flatten)))))
    ∧ (forward ops p x).length = x.length
    ∧ (∀ r ∈ forward ops p x, r.length = nb_class) := by
  obtain ⟨hw2, hb2⟩ := hp
  refine ⟨?_, ?_, ?_⟩
  · simp [forward, List.map_map]
  · simp [forward]
  · intro r hr
    simp only [forward, List.map_map, List.mem_map] at hr
    obtain ⟨v, hv, hr⟩ := hr
    rw [← hr]
    simp [Function.comp, logSoftmax_length, applyLinear_length, hw2, hb2]

/-- Witness for C9: a one-element batch through a 1-hidden-unit, 2-class
network. -/
theorem C9_forward_composition_witness :
    (outputShapeOk ⟨[[1]], [0], [[1], [2]], [0, 0]⟩ 2)
    ∧ (forward ⟨fun q => q, fun q => q⟩ ⟨[[1]], [0], [[1], [2]], [0, 0]⟩
        [[[3]]]).length = 1
    ∧ (∀ r ∈ forward ⟨fun q => q, fun q => q⟩ ⟨[[1]], [0], [[1], [2]], [0, 0]⟩
        [[[3]]], r.length = 2) :=
  ⟨⟨rfl, rfl⟩,
   (C9_forward_composition ⟨fun q => q, fun q => q⟩
      ⟨[[1]], [0], [[1], [2]], [0, 0]⟩ [[[3]]] 2 ⟨rfl, rfl⟩).2.1,
   (C9_forward_composition ⟨fun q => q, fun q => q⟩
      ⟨[[1]], [0], [[1], [2]], [0, 0]⟩ [[[3]]] 2 ⟨rfl, rfl⟩).2.2⟩

/-- Claim C10: `setup` mutates only the subset fields of the requested stage —
"fit" assigns train and validation and leaves test unchanged, "test" assigns
test and leaves train and validation unchanged, and any other stage value
leaves all three unchanged. -/
theorem C10_setup_frame (m : DataModule) (w : Option Nat) (n : Nat)
    (stage : Option String) :
    (stage = some "fit" →
        (setup m w n stage).datasetTrain
            = some (partition n setupFractions m.splitSeed).1
        ∧ (setup m w n stage).datasetVal
            = some (partition n setupFractions m.splitSeed).2.2
        ∧ (setup m w n stage).datasetTest = m.datasetTest)
    ∧ (stage = some "test" →
        (setup m w n stage).datasetTest
            = some (partition n setupFractions m.splitSeed).2.1
        ∧ (setup m w n stage).datasetTrain = m.datasetTrain
        ∧ (setup m w n stage).datasetVal = m.datasetVal)
    ∧ (stage ≠ some "fit" → stage ≠ some "test" →
        (setup m w n stage).datasetTrain = m.datasetTrain
        ∧ (setup m w n stage).datasetVal = m.datasetVal
        ∧ (setup m w n stage).datasetTest = m.datasetTest) := by
  refine ⟨fun h => ?_, fun h => ?_, fun h1 h2 => ?_⟩
  · subst h; cases w <;> simp [setup, set_auto_nb_workers]
  · subst h; cases w <;> simp [setup, set_auto_nb_workers]
  · cases w <;> simp [setup, set_auto_nb_workers, h1, h2]

/-- Witness for C10: a module touched by a "predict" stage keeps all three
subset fields, and a "fit" stage leaves the test field alone. -/
theorem C10_setup_frame_witness :
    ((setup (initDataModule 7) Option.none 5 (some "predict")).datasetTrain
        = (initDataModule 7).datasetTrain
      ∧ (setup (initDataModule 7) Option.none 5 (some "predict")).datasetVal
        = (initDataModule 7).datasetVal
      ∧ (setup (initDataModule 7) Option.none 5 (some "predict")).datasetTest
        = (initDataModule 7).datasetTest)
    ∧ (setup (initDataModule 7) Option.none 5 (some "fit")).datasetTest
        = (initDataModule 7).datasetTest :=
  ⟨(C10_setup_frame (initDataModule 7) Option.none 5 (some "predict")).2.2
      (by decide) (by decide),
   ((C10_setup_frame (initDataModule 7) Option.none 5 (some "fit")).1
      rfl).2.2⟩

end Boilerplate
